import Mathlib

/-!
Remote debug session support for QNX devices.

A shallow embedding of `src/plugins/qnx/qnxdebugsupport.cpp` (class
`Qnx::Internal::QnxDebugSupport`).  The object is a record; every call it makes
on a collaborator (debugger front-end, application launcher, log streamer,
device signal operation, port allocator) is appended to `trace`, oldest first.
-/

namespace Qnx

/-- Modelled from the spec: the `State` enumeration of `QnxAbstractRunSupport`,
whose header is not among the source files.  The source tests and sets
`Inactive`, `StartingRemoteProcess` and `Running`; the spec's data model adds
`Finishing`.  `GatheringPorts` stands for the state a session is in between the
begin-session request and `startExecution`: `handleAdapterSetupRequested`
requires `Inactive`, while `startExecution` returns at once when the state is
`Inactive` and only later sets `StartingRemoteProcess`. -/
inductive State
  | Inactive
  | GatheringPorts
  | StartingRemoteProcess
  | Running
  | Finishing
  deriving DecidableEq, Repr

/-- Modelled from the spec: `Utils::Port`, an optional port number ("optional
allocated port numbers"); `none` is the unset (invalid) port. -/
abbrev Port := Option Nat

/-- Modelled from the spec: `Utils::Port::number`.  `startExecution` reads the
number of the debug port only after `setPort` has stored a valid port. -/
def Port.number : Port → Nat
  | some n => n
  | none => 0

/-- `ProjectExplorer::StandardRunnable`, the fields `startExecution` reads and writes. -/
structure StandardRunnable where
  executable : String
  commandLineArguments : String
  environment : List (String × String)
  workingDirectory : String
  deriving DecidableEq, Repr

/-- Message channels of `DebuggerRunTool::showMessage` used by this class. -/
inductive Channel
  | AppOutput
  | AppError
  | AppStuff
  deriving DecidableEq, Repr

/-- `Utils::OutputFormat`, ignored by `handleApplicationOutput`. -/
inductive OutputFormat
  | NormalMessageFormat
  | ErrorMessageFormat
  | StdOutFormat
  | StdErrFormat
  deriving DecidableEq, Repr

/-- `Debugger::RemoteSetupResult`. -/
structure RemoteSetupResult where
  success : Bool
  reason : String
  gdbServerPort : Port
  qmlServerPort : Port
  deriving DecidableEq, Repr

/-- A default-constructed `RemoteSetupResult`: no reason, both ports unset.
Every handler below assigns `success` itself. -/
def RemoteSetupResult.init : RemoteSetupResult :=
  { success := false, reason := "", gdbServerPort := none, qmlServerPort := none }

/-- Calls made on the collaborators, in the order they are made. -/
inductive Effect
  /-- `toolRunner()->showMessage(msg, channel)` -/
  | showMessage (msg : String) (channel : Channel)
  /-- `toolRunner()->notifyEngineRemoteSetupFinished(result)` -/
  | notifyEngineRemoteSetupFinished (result : RemoteSetupResult)
  /-- `toolRunner()->notifyInferiorIll()` -/
  | notifyInferiorIll
  /-- `appRunner()->start(r, device())` -/
  | appRunnerStart (r : StandardRunnable)
  /-- the launcher stop issued by `setFinished` -/
  | appRunnerStop
  /-- the port release issued by `setFinished`, with the ports given back -/
  | releasePorts (ports : List Nat)
  /-- `Slog2InfoRunner::start` -/
  | slog2InfoStart
  /-- `m_slog2Info->stop()` -/
  | slog2InfoStop
  /-- `device()->signalOperation()->killProcess(path)` -/
  | killProcess (path : String)
  /-- `setState(st)` -/
  | stateChanged (st : State)
  deriving DecidableEq, Repr

/-- Library functions and constants used by the class whose definitions are
not among the source files; every theorem holds for all of them. -/
structure Externals where
  /-- `Constants::QNX_DEBUG_EXECUTABLE` -/
  QNX_DEBUG_EXECUTABLE : String
  /-- `QmlDebug::qmlDebugTcpArguments(QmlDebug::QmlDebuggerServices, port)` -/
  qmlDebugTcpArguments : Port → String
  /-- `Utils::QtcProcess::splitArgs` -/
  splitArgs : String → List String
  /-- `Utils::QtcProcess::joinArgs` -/
  joinArgs : List String → String
  /-- `QString::fromUtf8` on the bytes of a `QByteArray` -/
  fromUtf8 : List Nat → String

/-- The members of `QnxDebugSupport` (and of its base class) that the methods
use, the device's QNX version read by the constructor, and the trace. -/
structure QnxDebugSupport where
  m_state : State
  m_useCppDebugger : Bool
  m_useQmlDebugger : Bool
  m_runnable : StandardRunnable
  m_pdebugPort : Port
  m_qmlPort : Port
  /-- free ports of the device, in the order the allocator hands them out -/
  m_portList : List Nat
  /-- `qnxDevice->qnxVersion()` -/
  qnxVersion : Nat
  trace : List Effect
  deriving DecidableEq, Repr

/-- The two port members `setPort` is called on. -/
inductive PortSlot
  | pdebug
  | qml
  deriving DecidableEq, Repr

/-- Append one collaborator call to the trace. -/
def emit (e : Effect) (s : QnxDebugSupport) : QnxDebugSupport :=
  { s with trace := s.trace ++ [e] }

/-- The constructor: flags and runnable are read from the run configuration,
both ports are default-constructed (unset); the base class starts `Inactive`. -/
def QnxDebugSupport.create (useCpp useQml : Bool) (runnable : StandardRunnable)
    (freePorts : List Nat) (version : Nat) : QnxDebugSupport :=
  { m_state := .Inactive, m_useCppDebugger := useCpp, m_useQmlDebugger := useQml,
    m_runnable := runnable, m_pdebugPort := none, m_qmlPort := none,
    m_portList := freePorts, qnxVersion := version, trace := [] }

/-- Modelled from the spec: `QnxAbstractRunSupport::setState`, the state setter
of the base class; the change is also recorded in the trace. -/
def setState (st : State) (s : QnxDebugSupport) : QnxDebugSupport :=
  emit (.stateChanged st) { s with m_state := st }

/-- The valid ports among the two port members. -/
def allocatedPorts (s : QnxDebugSupport) : List Nat :=
  s.m_pdebugPort.toList ++ s.m_qmlPort.toList

/-- Modelled from the spec: `QnxAbstractRunSupport::setFinished`, missing from
the source files.  The source comment says it "will kill pdebug" (the launched
process); the spec has the session release its ports and become `Inactive`
("release all allocated ports", ports "present only while the session needs
them"). -/
def setFinished (s : QnxDebugSupport) : QnxDebugSupport :=
  { s with
    m_state := .Inactive
    m_pdebugPort := none
    m_qmlPort := none
    trace := s.trace ++ [.appRunnerStop, .releasePorts (allocatedPorts s)] }

/-- `QnxDebugSupport::processExecutable`. -/
def processExecutable (ext : Externals) (s : QnxDebugSupport) : String :=
  if s.m_useCppDebugger then ext.QNX_DEBUG_EXECUTABLE else s.m_runnable.executable

/-- `QnxDebugSupport::handleError`. -/
def handleError (error : String) (s : QnxDebugSupport) : QnxDebugSupport :=
  if s.m_state = .Running then
    emit .notifyInferiorIll (emit (.showMessage error .AppError) s)
  else if s.m_state ≠ .Inactive then
    emit (.notifyEngineRemoteSetupFinished
      { RemoteSetupResult.init with
        success := false
        reason := "Initial setup failed: " ++ error }) (setFinished s)
  else s

/-- Modelled from the spec: the error text for `PortExhaustion`. -/
def portExhaustion : String := "PortExhaustion"

/-- Write a port into one of the two port members. -/
def assignPort (slot : PortSlot) (p : Port) (s : QnxDebugSupport) : QnxDebugSupport :=
  match slot with
  | .pdebug => { s with m_pdebugPort := p }
  | .qml => { s with m_qmlPort := p }

/-- Modelled from the spec: `QnxAbstractRunSupport::setPort`, missing from the
source files.  It takes the next free port from the allocator's ordered list;
when there is none it reports `PortExhaustion` on the error path shared with
launch failures (`handleError`) and returns `false`. -/
def setPort (slot : PortSlot) (s : QnxDebugSupport) : Bool × QnxDebugSupport :=
  match s.m_portList with
  | [] => (false, handleError portExhaustion s)
  | p :: rest => (true, assignPort slot (some p) { s with m_portList := rest })

/-- The argument list built by `startExecution` (lines 102-111). -/
def buildArguments (ext : Externals) (s : QnxDebugSupport) : List String :=
  if s.m_useCppDebugger then
    [toString (Port.number s.m_pdebugPort)]
  else
    (if s.m_useQmlDebugger then [ext.qmlDebugTcpArguments s.m_qmlPort] else [])
      ++ ext.splitArgs s.m_runnable.commandLineArguments

/-- The runnable `startExecution` passes to `appRunner()->start` (lines 101-116). -/
def buildRunnable (ext : Externals) (s : QnxDebugSupport) : StandardRunnable :=
  { executable := processExecutable ext s
    commandLineArguments := ext.joinArgs (buildArguments ext s)
    environment := s.m_runnable.environment
    workingDirectory := s.m_runnable.workingDirectory }

/-- `QnxDebugSupport::startExecution`. -/
def startExecution (ext : Externals) (s : QnxDebugSupport) : QnxDebugSupport :=
  if s.m_state = .Inactive then s
  else
    let r1 := if s.m_useCppDebugger then setPort .pdebug s else (true, s)
    if r1.1 = false then r1.2
    else
      let r2 := if r1.2.m_useQmlDebugger then setPort .qml r1.2 else (true, r1.2)
      if r2.1 = false then r2.2
      else
        let s3 := setState .StartingRemoteProcess r2.2
        emit (.appRunnerStart (buildRunnable ext s3)) s3

/-- Modelled from the spec: `QnxAbstractRunSupport::handleAdapterSetupRequested`,
missing from the source files: the begin-session request gathers the device's
free ports (the session is in `GatheringPorts`) and runs `startExecution`. -/
def QnxAbstractRunSupport.handleAdapterSetupRequested (ext : Externals)
    (s : QnxDebugSupport) : QnxDebugSupport :=
  startExecution ext { s with m_state := .GatheringPorts }

/-- `QnxDebugSupport::handleAdapterSetupRequested`. -/
def handleAdapterSetupRequested (ext : Externals) (s : QnxDebugSupport) : QnxDebugSupport :=
  if s.m_state = .Inactive then
    QnxAbstractRunSupport.handleAdapterSetupRequested ext
      (emit (.showMessage ("Preparing remote side..." ++ "\n") .AppStuff) s)
  else s

/-- Modelled from the spec: `QnxAbstractRunSupport::handleRemoteProcessStarted`,
missing from the source files: on the launcher's "remote process started" the
session is `Running`. -/
def QnxAbstractRunSupport.handleRemoteProcessStarted (s : QnxDebugSupport) : QnxDebugSupport :=
  { s with m_state := .Running }

/-- `QnxDebugSupport::handleRemoteProcessStarted`. -/
def handleRemoteProcessStarted (s : QnxDebugSupport) : QnxDebugSupport :=
  let s1 := QnxAbstractRunSupport.handleRemoteProcessStarted s
  emit (.notifyEngineRemoteSetupFinished
    { RemoteSetupResult.init with
      success := true
      gdbServerPort := s1.m_pdebugPort
      qmlServerPort := s1.m_qmlPort }) s1

/-- `QnxDebugSupport::handleRemoteProcessFinished`. -/
def handleRemoteProcessFinished (ext : Externals) (success : Bool)
    (s : QnxDebugSupport) : QnxDebugSupport :=
  if s.m_state = .Inactive then s
  else if s.m_state = .Running then
    if success = false then emit .notifyInferiorIll s else s
  else
    emit (.notifyEngineRemoteSetupFinished
      { RemoteSetupResult.init with
        success := false
        reason := "The " ++ processExecutable ext s ++ " process closed unexpectedly." }) s

/-- `QnxDebugSupport::killInferiorProcess`. -/
def killInferiorProcess (s : QnxDebugSupport) : QnxDebugSupport :=
  emit (.killProcess s.m_runnable.executable) s

/-- `QnxDebugSupport::handleDebuggingFinished`. -/
def handleDebuggingFinished (s : QnxDebugSupport) : QnxDebugSupport :=
  killInferiorProcess (emit .slog2InfoStop (setFinished s))

/-- `QnxDebugSupport::handleProgressReport`. -/
def handleProgressReport (progressOutput : String) (s : QnxDebugSupport) : QnxDebugSupport :=
  emit (.showMessage (progressOutput ++ "\n") .AppStuff) s

/-- `QnxDebugSupport::handleRemoteOutput`. -/
def handleRemoteOutput (ext : Externals) (output : List Nat)
    (s : QnxDebugSupport) : QnxDebugSupport :=
  if s.m_state = .Inactive ∨ s.m_state = .Running then
    emit (.showMessage (ext.fromUtf8 output) .AppOutput) s
  else s

/-- The text of the warning shown by `printMissingWarning`. -/
def missingWarningText : String :=
  "Warning: " ++ String.singleton (Char.ofNat 34) ++ "slog2info" ++ String.singleton (Char.ofNat 34)
    ++ " is not found on the device, debug output not available."

/-- `QnxDebugSupport::printMissingWarning`. -/
def printMissingWarning (s : QnxDebugSupport) : QnxDebugSupport :=
  emit (.showMessage missingWarningText .AppError) s

/-- `QnxDebugSupport::handleApplicationOutput`. -/
def handleApplicationOutput (msg : String) (_outputFormat : OutputFormat)
    (s : QnxDebugSupport) : QnxDebugSupport :=
  emit (.showMessage msg .AppOutput) s

/-- Signals connected in the constructor. -/
inductive Event
  /-- `DebuggerRunTool::requestRemoteSetup`, the begin-session request -/
  | requestRemoteSetup
  /-- `ApplicationLauncher::reportError` -/
  | reportError (error : String)
  /-- `ApplicationLauncher::remoteProcessStarted` -/
  | remoteProcessStarted
  /-- `ApplicationLauncher::finished` -/
  | finished (success : Bool)
  /-- `ApplicationLauncher::reportProgress` -/
  | reportProgress (progressOutput : String)
  /-- `ApplicationLauncher::remoteStdout` -/
  | remoteStdout (output : List Nat)
  /-- `ApplicationLauncher::remoteStderr` -/
  | remoteStderr (output : List Nat)
  /-- `Slog2InfoRunner::output` -/
  | slog2Output (msg : String) (outputFormat : OutputFormat)
  /-- `Slog2InfoRunner::commandMissing` -/
  | commandMissing
  /-- `RunControl::finished`, the end-session request -/
  | runControlFinished
  deriving DecidableEq, Repr

/-- Delivery of one signal to the slots connected in the constructor, in
connection order. -/
def dispatch (ext : Externals) (ev : Event) (s : QnxDebugSupport) : QnxDebugSupport :=
  match ev with
  | .requestRemoteSetup => handleAdapterSetupRequested ext s
  | .reportError error => handleError error s
  | .remoteProcessStarted => emit .slog2InfoStart (handleRemoteProcessStarted s)
  | .finished success => handleRemoteProcessFinished ext success s
  | .reportProgress progressOutput => handleProgressReport progressOutput s
  | .remoteStdout output => handleRemoteOutput ext output s
  | .remoteStderr output => handleRemoteOutput ext output s
  | .slog2Output msg outputFormat => handleApplicationOutput msg outputFormat s
  | .commandMissing => if s.qnxVersion > 0x060500 then printMissingWarning s else s
  | .runControlFinished => handleDebuggingFinished s

/-- Delivery of a sequence of signals, first to last. -/
def run (ext : Externals) (evs : List Event) (s : QnxDebugSupport) : QnxDebugSupport :=
  evs.foldl (fun acc ev => dispatch ext ev acc) s

/-- Number of `notifyEngineRemoteSetupFinished` calls in a trace. -/
def setupResultCount (t : List Effect) : Nat :=
  t.countP (fun e => match e with
    | .notifyEngineRemoteSetupFinished _ => true
    | _ => false)

/-- Number of `notifyInferiorIll` calls in a trace. -/
def inferiorIllCount (t : List Effect) : Nat :=
  t.count .notifyInferiorIll

/-- Split a character list at blanks; `cur` holds the current word, reversed. -/
def splitBlanks : List Char → List Char → List String
  | [], cur => if cur = [] then [] else [String.mk cur.reverse]
  | c :: cs, cur =>
    if c = ' ' then
      (if cur = [] then splitBlanks cs [] else String.mk cur.reverse :: splitBlanks cs [])
    else splitBlanks cs (c :: cur)

/-- Join words with one blank between neighbours. -/
def joinBlanks : List String → String
  | [] => ""
  | [w] => w
  | w :: ws => w ++ " " ++ joinBlanks ws

/-- A plain stand-in for the library functions: arguments are separated by
blanks and joined by one blank, which is what `QtcProcess::splitArgs` and
`QtcProcess::joinArgs` do for words that need no quoting. -/
def plainExternals : Externals :=
  { QNX_DEBUG_EXECUTABLE := "pdebug"
    qmlDebugTcpArguments := fun p => "-qmljsdebugger=port:" ++ toString (Port.number p)
    splitArgs := fun a => splitBlanks a.data []
    joinArgs := joinBlanks
    fromUtf8 := fun bytes => String.mk (bytes.map Char.ofNat) }

/-- A sample run configuration: application `/tmp/app` with the given argument string. -/
def sampleRunnable (args : String) : StandardRunnable :=
  { executable := "/tmp/app", commandLineArguments := args, environment := [],
    workingDirectory := "/tmp" }

/-- A sample session that has left `Inactive` and is about to run `startExecution`. -/
def sampleSession (useCpp useQml : Bool) (args : String) (freePorts : List Nat) :
    QnxDebugSupport :=
  { QnxDebugSupport.create useCpp useQml (sampleRunnable args) freePorts 0x060600 with
    m_state := .GatheringPorts }

/-- Number of ports `startExecution` asks for. -/
def requiredPorts (s : QnxDebugSupport) : Nat :=
  (if s.m_useCppDebugger then 1 else 0) + (if s.m_useQmlDebugger then 1 else 0)

/-- The calls `f` adds to the trace of `s`. -/
def newEffects (f : QnxDebugSupport → QnxDebugSupport) (s : QnxDebugSupport) : List Effect :=
  (f s).trace.drop s.trace.length

/-- A freshly constructed sample session (`Inactive`, ports unset). -/
def freshSession (useCpp useQml : Bool) (args : String) (freePorts : List Nat) :
    QnxDebugSupport :=
  QnxDebugSupport.create useCpp useQml (sampleRunnable args) freePorts 0x060600

/-- Launcher signals that report a failure: an error, or `finished` without success. -/
def Event.isFailure : Event → Bool
  | .reportError _ => true
  | .finished success => !success
  | _ => false

/-- Number of failure signals in a sequence that reach the session while it is
`Running`. -/
def failuresWhileRunning (ext : Externals) : List Event → QnxDebugSupport → Nat
  | [], _ => 0
  | ev :: evs, s =>
    (if s.m_state = .Running ∧ ev.isFailure = true then 1 else 0)
      + failuresWhileRunning ext evs (dispatch ext ev s)

/-- Number of `Slog2InfoRunner::start` calls in a trace. -/
def slog2StartCount (t : List Effect) : Nat :=
  t.count .slog2InfoStart

/-- A freshly constructed sample session on a device of the given QNX version. -/
def deviceSession (version : Nat) (useCpp useQml : Bool) (freePorts : List Nat) :
    QnxDebugSupport :=
  QnxDebugSupport.create useCpp useQml (sampleRunnable "") freePorts version

/-- The members of a session without its trace. -/
def members (s : QnxDebugSupport) : QnxDebugSupport :=
  { s with trace := [] }

end Qnx

/-!
Tool chain options page.

A shallow embedding of the tree model in
`src/plugins/projectexplorer/toolchainoptionspage.cpp` (classes `ToolChainNode`
and `ToolChainModel`).  Nodes live in a heap and are referred to by address;
tool chains and configuration widgets are referred to by address as well.
-/

namespace ProjectExplorer

/-- What goes wrong when the code follows a pointer it must not follow or reads
a list outside its bounds. -/
inductive Fault
  | nullDereference
  | danglingPointer
  | indexOutOfRange
  deriving DecidableEq, Repr

/-- Qt's `QModelIndex`: row, column, internal pointer (`none` is the null
pointer) and whether a model is attached. -/
structure QModelIndex where
  row : Int
  column : Int
  internalPointer : Option Nat
  hasModel : Bool
  deriving DecidableEq, Repr

/-- The default-constructed `QModelIndex()`. -/
def QModelIndex.invalid : QModelIndex :=
  { row := -1, column := -1, internalPointer := none, hasModel := false }

/-- `QModelIndex::isValid`. -/
def QModelIndex.isValid (i : QModelIndex) : Bool :=
  decide (0 ≤ i.row) && decide (0 ≤ i.column) && i.hasModel

/-- `QAbstractItemModel::createIndex(row, column, ptr)`. -/
def createIndex (row column : Int) (ptr : Option Nat) : QModelIndex :=
  { row := row, column := column, internalPointer := ptr, hasModel := true }

/-- `ToolChainNode`, lines 56-89. -/
structure ToolChainNode where
  parent : Option Nat
  newName : String
  childNodes : List Nat
  toolChain : Option Nat
  widget : Option Nat
  changed : Bool
  deriving DecidableEq, Repr

/-- The members of a node right after the initialiser list of its constructor
(line 60) and the assignment of `widget` (line 64): no new name, no children. -/
def ToolChainNode.init (p tc w : Option Nat) (c : Bool) : ToolChainNode :=
  { parent := p, newName := "", childNodes := [], toolChain := tc, widget := w, changed := c }

/-- Calls the model makes on its views, widgets and tool chains. -/
inductive ModelCall
  /-- `beginInsertRows(index(parent), first, last)` -/
  | beginInsertRows (parent first last : Nat)
  | endInsertRows
  /-- `beginRemoveRows(index(parent), first, last)` -/
  | beginRemoveRows (parent first last : Nat)
  | endRemoveRows
  /-- `widget->makeReadOnly()` -/
  | makeReadOnly (widget : Nat)
  /-- `widget->setVisible(visible)` -/
  | setVisible (widget : Nat) (visible : Bool)
  /-- `m_configWidgetParent->layout()->addWidget(widget)` -/
  | layoutAddWidget (widget : Nat)
  /-- `connect(widget, SIGNAL(dirty()), this, SLOT(setDirty()))` -/
  | connectDirty (widget : Nat)
  /-- `delete node->toolChain` -/
  | deleteToolChain (toolChain : Option Nat)
  /-- `emit toolChainStateChanged()` -/
  | toolChainStateChanged
  deriving DecidableEq, Repr

/-- The members of `ToolChain` the model reads; `toolchain.h` is not among the
source files, so they are parameters. -/
structure ToolChains where
  /-- `tc->configurationWidget()` -/
  configurationWidget : Nat → Option Nat
  /-- `tc->isAutoDetected()` -/
  isAutoDetected : Nat → Bool

/-- `ToolChainModel`: the node heap (a node's address is its position; `new`
hands out the next position), the three root pointers, the two pending lists,
and the calls made so far. -/
structure ToolChainModel where
  heap : List ToolChainNode
  m_root : Nat
  m_autoRoot : Nat
  m_manualRoot : Nat
  m_toAddList : List Nat
  m_toRemoveList : List Nat
  calls : List ModelCall
  deriving DecidableEq, Repr

/-- `node->childNodes` for a live node; empty for an address without a node. -/
def ToolChainModel.children (m : ToolChainModel) (a : Nat) : List Nat :=
  match m.heap[a]? with
  | some n => n.childNodes
  | none => []

/-- `node->toolChain` for a live node; null for an address without a node. -/
def ToolChainModel.toolChainAt (m : ToolChainModel) (a : Nat) : Option Nat :=
  match m.heap[a]? with
  | some n => n.toolChain
  | none => none

/-- Assignment to members of the node at address `a`. -/
def ToolChainModel.modifyNode (a : Nat) (f : ToolChainNode → ToolChainNode)
    (m : ToolChainModel) : ToolChainModel :=
  match m.heap[a]? with
  | some n => { m with heap := m.heap.set a (f n) }
  | none => m

/-- Record calls made on collaborators. -/
def ToolChainModel.record (cs : List ModelCall) (m : ToolChainModel) : ToolChainModel :=
  { m with calls := m.calls ++ cs }

/-- The constructor `ToolChainNode(p, tc, c)`, lines 59-70; returns the new
node's address. -/
def newToolChainNode (tcs : ToolChains) (p : Option Nat) (tc : Option Nat) (c : Bool)
    (m : ToolChainModel) : Nat × ToolChainModel :=
  let a := m.heap.length
  let w := tc.bind tcs.configurationWidget
  let m1 := { m with heap := m.heap ++ [ToolChainNode.init p tc w c] }
  let m2 := match p with
    | some pa => m1.modifyNode pa (fun n => { n with childNodes := n.childNodes ++ [a] })
    | none => m1
  let m3 := match w with
    | some wid =>
      m2.record ((if (tc.map tcs.isAutoDetected).getD false then [.makeReadOnly wid] else [])
        ++ [.setVisible wid false])
    | none => m2
  (a, m3)

/-- `ToolChainModel::createNode`, lines 403-412. -/
def createNode (tcs : ToolChains) (parent : Option Nat) (tc : Option Nat) (changed : Bool)
    (m : ToolChainModel) : Nat × ToolChainModel :=
  let r := newToolChainNode tcs parent tc changed m
  match r.2.heap[r.1]? with
  | some n =>
    match n.widget with
    | some wid => (r.1, r.2.record [.layoutAddWidget wid, .connectDirty wid])
    | none => r
  | none => r

/-- `ToolChainModel::addToolChain`, lines 414-435. -/
def addToolChain (tcs : ToolChains) (tc : Nat) (m : ToolChainModel) : ToolChainModel :=
  match m.m_toAddList.find? (fun n => decide (m.toolChainAt n = some tc)) with
  | some n => { m with m_toAddList := m.m_toAddList.erase n }
  | none =>
    let parent := if tcs.isAutoDetected tc then m.m_autoRoot else m.m_manualRoot
    let row := (m.children parent).length
    let m1 := m.record [.beginInsertRows parent row row]
    let m2 := (createNode tcs (some parent) (some tc) false m1).2
    m2.record [.endInsertRows, .toolChainStateChanged]

/-- The constructor `ToolChainModel::ToolChainModel`, lines 95-113, for the tool
chains the manager knows at the time. -/
def ToolChainModel.create (tcs : ToolChains) (managerToolChains : List Nat) : ToolChainModel :=
  let m0 : ToolChainModel :=
    { heap := [], m_root := 0, m_autoRoot := 0, m_manualRoot := 0, m_toAddList := [],
      m_toRemoveList := [], calls := [] }
  let r := newToolChainNode tcs none none false m0
  let m1 := { r.2 with m_root := r.1 }
  let ra := newToolChainNode tcs (some m1.m_root) none false m1
  let m2 := { ra.2 with m_autoRoot := ra.1 }
  let rm := newToolChainNode tcs (some m2.m_root) none false m2
  let m3 := { rm.2 with m_manualRoot := rm.1 }
  managerToolChains.foldl (fun acc tc => addToolChain tcs tc acc) m3

/-- `node->childNodes` where `node` is a pointer that may be null or dangling. -/
def childNodesOf (m : ToolChainModel) (node : Option Nat) : Except Fault (List Nat) :=
  match node with
  | none => .error .nullDereference
  | some a =>
    match m.heap[a]? with
    | some n => .ok n.childNodes
    | none => .error .danglingPointer

/-- `QList::at(i)`. -/
def listAt (l : List Nat) (i : Int) : Except Fault Nat :=
  if 0 ≤ i then
    match l[i.toNat]? with
    | some x => .ok x
    | none => .error .indexOutOfRange
  else .error .indexOutOfRange

/-- Lines 126-130 of `ToolChainModel::index(int, int, const QModelIndex &)`: the
lookup below the node the parent index points to. -/
def indexBelowParent (m : ToolChainModel) (row column : Int) (parent : QModelIndex) :
    Except Fault QModelIndex :=
  match childNodesOf m parent.internalPointer with
  | .error f => .error f
  | .ok cs =>
    if row < cs.length ∧ column < 2 then
      match listAt cs row with
      | .ok child => .ok (createIndex row column (some child))
      | .error f => .error f
    else .ok QModelIndex.invalid

/-- `ToolChainModel::index(int row, int column, const QModelIndex &parent)`,
lines 120-131. -/
def ToolChainModel.index (m : ToolChainModel) (row column : Int) (parent : QModelIndex) :
    Except Fault QModelIndex :=
  if parent.isValid = false then
    match childNodesOf m (some m.m_root) with
    | .error f => .error f
    | .ok cs =>
      if 0 ≤ row ∧ row < cs.length then
        match listAt cs row with
        | .ok child => .ok (createIndex row column (some child))
        | .error f => .error f
      else indexBelowParent m row column parent
  else indexBelowParent m row column parent

/-- `ToolChainModel::markForAddition`, lines 382-391. -/
def markForAddition (tcs : ToolChains) (tc : Nat) (m : ToolChainModel) : ToolChainModel :=
  let pos := (m.children m.m_manualRoot).length
  let m1 := m.record [.beginInsertRows m.m_manualRoot pos pos]
  let r := createNode tcs (some m1.m_manualRoot) (some tc) true m1
  let m2 := { r.2 with m_toAddList := r.2.m_toAddList ++ [r.1] }
  m2.record [.endInsertRows]

/-- Sample tool chains: even addresses are auto-detected; tool chain `t` has the
configuration widget `100 + t`. -/
def sampleToolChains : ToolChains :=
  { configurationWidget := fun t => some (100 + t)
    isAutoDetected := fun t => t % 2 == 0 }

/-- A sample model: the manager knows the manual tool chain 5 and the
auto-detected tool chain 6, and tool chain 7 has been marked for addition. -/
def sampleModel : ToolChainModel :=
  markForAddition sampleToolChains 7 (ToolChainModel.create sampleToolChains [5, 6])

end ProjectExplorer

namespace Qnx

/-! ## Command-line construction in `startExecution` -/

/-- C1: with native debugging only, every runnable `startExecution` hands to the
launcher has the debug helper as executable and exactly one argument, the
decimal text of the port just allocated; such a runnable is handed over whenever
the session is not `Inactive` and a port is free; and nothing of this depends on
the original argument string. -/
theorem startExecution_native_only (ext : Externals) (s : QnxDebugSupport)
    (hcpp : s.m_useCppDebugger = true) (hqml : s.m_useQmlDebugger = false) :
    (∀ r, Effect.appRunnerStart r ∈ newEffects (startExecution ext) s →
      ∃ p rest, s.m_portList = p :: rest ∧
        (startExecution ext s).m_pdebugPort = some p ∧
        buildArguments ext (startExecution ext s) = [toString p] ∧
        r.executable = ext.QNX_DEBUG_EXECUTABLE ∧
        r.commandLineArguments = ext.joinArgs [toString p]) ∧
    (∀ p rest, s.m_state ≠ .Inactive → s.m_portList = p :: rest →
      newEffects (startExecution ext) s =
        [.stateChanged .StartingRemoteProcess,
         .appRunnerStart
          { executable := ext.QNX_DEBUG_EXECUTABLE
            commandLineArguments := ext.joinArgs [toString p]
            environment := s.m_runnable.environment
            workingDirectory := s.m_runnable.workingDirectory }]) ∧
    (∀ args, newEffects (startExecution ext)
        { s with m_runnable := { s.m_runnable with commandLineArguments := args } } =
      newEffects (startExecution ext) s) := by
  refine ⟨?_, ?_, ?_⟩
  · intro r hr
    by_cases hst : s.m_state = .Inactive
    · simp [newEffects, startExecution, hst] at hr
    · cases hpl : s.m_portList with
      | nil =>
        by_cases hrun : s.m_state = .Running <;>
          simp [newEffects, startExecution, hst, hcpp, setPort, hpl, handleError, hrun,
            emit, setFinished] at hr
      | cons p rest =>
        refine ⟨p, rest, rfl, ?_⟩
        simp [newEffects, startExecution, hst, hcpp, hqml, setPort, hpl, assignPort,
          setState, emit, buildRunnable, buildArguments, processExecutable,
          Port.number] at hr ⊢
        subst hr
        simp
  · intro p rest hst hpl
    simp [newEffects, startExecution, hst, hcpp, hqml, setPort, hpl, assignPort,
      setState, emit, buildRunnable, buildArguments, processExecutable, Port.number]
  · intro args
    by_cases hst : s.m_state = .Inactive
    · simp [newEffects, startExecution, hst]
    · cases hpl : s.m_portList with
      | nil =>
        by_cases hrun : s.m_state = .Running <;>
          simp [newEffects, startExecution, hst, hcpp, setPort, hpl, handleError, hrun,
            emit, setFinished, allocatedPorts]
      | cons p rest =>
        simp [newEffects, startExecution, hst, hcpp, hqml, setPort, hpl, assignPort,
          setState, emit, buildRunnable, buildArguments, processExecutable, Port.number]

/-- Witness for C1: a native-only session with free port 10000 launches `pdebug 10000`. -/
theorem startExecution_native_only_witness :
    (sampleSession true false "--fast in.txt" [10000]).m_useCppDebugger = true ∧
    (sampleSession true false "--fast in.txt" [10000]).m_useQmlDebugger = false ∧
    newEffects (startExecution plainExternals) (sampleSession true false "--fast in.txt" [10000]) =
      [.stateChanged .StartingRemoteProcess,
       .appRunnerStart
        { executable := "pdebug", commandLineArguments := "10000", environment := [],
          workingDirectory := "/tmp" }] :=
  ⟨rfl, rfl,
    (startExecution_native_only plainExternals (sampleSession true false "--fast in.txt" [10000])
      rfl rfl).2.1 10000 [] (by decide) rfl⟩

/-- C2: with script debugging only, every runnable `startExecution` hands to the
launcher keeps the application's own executable, and its argument list is the
script-debugger connection argument for the port just allocated followed by the
original arguments, split, in their order; such a runnable is handed over
whenever the session is not `Inactive` and a port is free. -/
theorem startExecution_qml_only (ext : Externals) (s : QnxDebugSupport)
    (hcpp : s.m_useCppDebugger = false) (hqml : s.m_useQmlDebugger = true) :
    (∀ r, Effect.appRunnerStart r ∈ newEffects (startExecution ext) s →
      ∃ p rest, s.m_portList = p :: rest ∧
        (startExecution ext s).m_qmlPort = some p ∧
        buildArguments ext (startExecution ext s) =
          ext.qmlDebugTcpArguments (some p) :: ext.splitArgs s.m_runnable.commandLineArguments ∧
        r.executable = s.m_runnable.executable ∧
        r.commandLineArguments = ext.joinArgs
          (ext.qmlDebugTcpArguments (some p) :: ext.splitArgs s.m_runnable.commandLineArguments)) ∧
    (∀ p rest, s.m_state ≠ .Inactive → s.m_portList = p :: rest →
      newEffects (startExecution ext) s =
        [.stateChanged .StartingRemoteProcess,
         .appRunnerStart
          { executable := s.m_runnable.executable
            commandLineArguments := ext.joinArgs
              (ext.qmlDebugTcpArguments (some p) :: ext.splitArgs s.m_runnable.commandLineArguments)
            environment := s.m_runnable.environment
            workingDirectory := s.m_runnable.workingDirectory }]) := by
  refine ⟨?_, ?_⟩
  · intro r hr
    by_cases hst : s.m_state = .Inactive
    · simp [newEffects, startExecution, hst] at hr
    · cases hpl : s.m_portList with
      | nil =>
        by_cases hrun : s.m_state = .Running <;>
          simp [newEffects, startExecution, hst, hcpp, hqml, setPort, hpl, handleError, hrun,
            emit, setFinished] at hr
      | cons p rest =>
        refine ⟨p, rest, rfl, ?_⟩
        simp [newEffects, startExecution, hst, hcpp, hqml, setPort, hpl, assignPort,
          setState, emit, buildRunnable, buildArguments, processExecutable] at hr ⊢
        subst hr
        simp
  · intro p rest hst hpl
    simp [newEffects, startExecution, hst, hcpp, hqml, setPort, hpl, assignPort,
      setState, emit, buildRunnable, buildArguments, processExecutable]

/-- Witness for C2: a script-only session with free port 10000 and arguments
`--fast in.txt`. -/
theorem startExecution_qml_only_witness :
    (sampleSession false true "--fast in.txt" [10000]).m_useCppDebugger = false ∧
    (sampleSession false true "--fast in.txt" [10000]).m_useQmlDebugger = true ∧
    newEffects (startExecution plainExternals) (sampleSession false true "--fast in.txt" [10000]) =
      [.stateChanged .StartingRemoteProcess,
       .appRunnerStart
        { executable := "/tmp/app"
          commandLineArguments := "-qmljsdebugger=port:10000 --fast in.txt"
          environment := []
          workingDirectory := "/tmp" }] :=
  ⟨rfl, rfl,
    (startExecution_qml_only plainExternals (sampleSession false true "--fast in.txt" [10000])
      rfl rfl).2 10000 [] (by decide) rfl⟩

/-- C3, counterexample: with neither debugger and the argument string `a  b`
(two blanks), the launcher receives the re-joined string `a b`, not the original. -/
theorem no_debugger_arguments_rejoined :
    newEffects (startExecution plainExternals) (sampleSession false false "a  b" []) =
      [.stateChanged .StartingRemoteProcess, .appRunnerStart (sampleRunnable "a b")] ∧
    (sampleRunnable "a b").commandLineArguments ≠
      (sampleSession false false "a  b" []).m_runnable.commandLineArguments := by
  constructor
  · rfl
  · decide

/-- C3, amended: with neither debugger, every runnable `startExecution` hands to
the launcher has the snapshot's executable, environment and working directory,
and its argument string is the snapshot's arguments split and joined again,
nothing added; it is handed over whenever the session is not `Inactive`; no port
is requested; and the runnable is the snapshot itself whenever joining the split
arguments gives back the original string. -/
theorem startExecution_no_debugger (ext : Externals) (s : QnxDebugSupport)
    (hcpp : s.m_useCppDebugger = false) (hqml : s.m_useQmlDebugger = false) :
    (∀ r, Effect.appRunnerStart r ∈ newEffects (startExecution ext) s →
      r = { s.m_runnable with
            commandLineArguments :=
              ext.joinArgs (ext.splitArgs s.m_runnable.commandLineArguments) }) ∧
    (s.m_state ≠ .Inactive →
      buildArguments ext (startExecution ext s) = ext.splitArgs s.m_runnable.commandLineArguments ∧
      newEffects (startExecution ext) s =
        [.stateChanged .StartingRemoteProcess,
         .appRunnerStart
          { s.m_runnable with
            commandLineArguments :=
              ext.joinArgs (ext.splitArgs s.m_runnable.commandLineArguments) }]) ∧
    ((startExecution ext s).m_portList = s.m_portList ∧
      (startExecution ext s).m_pdebugPort = s.m_pdebugPort ∧
      (startExecution ext s).m_qmlPort = s.m_qmlPort ∧
      ∀ ports, Effect.releasePorts ports ∉ newEffects (startExecution ext) s) ∧
    (ext.joinArgs (ext.splitArgs s.m_runnable.commandLineArguments) =
        s.m_runnable.commandLineArguments →
      ∀ r, Effect.appRunnerStart r ∈ newEffects (startExecution ext) s → r = s.m_runnable) := by
  by_cases hst : s.m_state = .Inactive
  · simp [newEffects, startExecution, hst]
  · simp [newEffects, startExecution, hst, hcpp, hqml, setState, emit, buildRunnable,
      buildArguments, processExecutable]
    intro h
    rw [h]

/-- Witness for C3 (amended): a session without debuggers and arguments `a  b`. -/
theorem startExecution_no_debugger_witness :
    (sampleSession false false "a  b" [10000]).m_useCppDebugger = false ∧
    (sampleSession false false "a  b" [10000]).m_useQmlDebugger = false ∧
    (startExecution plainExternals (sampleSession false false "a  b" [10000])).m_portList =
      [10000] :=
  ⟨rfl, rfl,
    (startExecution_no_debugger plainExternals (sampleSession false false "a  b" [10000])
      rfl rfl).2.2.1.1⟩

/-! ## Port exhaustion -/

/-- C4: when `startExecution` runs (the session is not `Inactive`) before the
process runs and fewer ports are free than the enabled debuggers need, no
launcher start call is made, `setState(StartingRemoteProcess)` is never
reached, exactly one setup result is reported and it carries `success = false`
with the port-exhaustion reason, and the session is `Inactive` afterwards. -/
theorem startExecution_port_exhaustion (ext : Externals) (s : QnxDebugSupport)
    (hst : s.m_state ≠ .Inactive) (hrun : s.m_state ≠ .Running)
    (hports : s.m_portList.length < requiredPorts s) :
    (∀ r, Effect.appRunnerStart r ∉ newEffects (startExecution ext) s) ∧
    Effect.stateChanged .StartingRemoteProcess ∉ newEffects (startExecution ext) s ∧
    (∃ ports, newEffects (startExecution ext) s =
      [.appRunnerStop, .releasePorts ports,
       .notifyEngineRemoteSetupFinished
        { success := false
          reason := "Initial setup failed: " ++ portExhaustion
          gdbServerPort := none
          qmlServerPort := none }]) ∧
    setupResultCount (newEffects (startExecution ext) s) = 1 ∧
    (startExecution ext s).m_state = .Inactive := by
  cases hpl : s.m_portList with
  | nil =>
    by_cases hcpp : s.m_useCppDebugger = true
    · simp [newEffects, startExecution, hst, hrun, hcpp, setPort, hpl, handleError, emit,
        setFinished, setupResultCount, RemoteSetupResult.init]
    · have hqml : s.m_useQmlDebugger = true := by
        by_contra hq
        simp [requiredPorts, hcpp, hq] at hports
      simp [newEffects, startExecution, hst, hrun, hcpp, hqml, setPort, hpl, handleError, emit,
        setFinished, setupResultCount, RemoteSetupResult.init]
  | cons p rest =>
    have hcpp : s.m_useCppDebugger = true := by
      by_contra hc
      by_cases hq : s.m_useQmlDebugger = true <;>
        simp [requiredPorts, hc, hq, hpl] at hports
    have hqml : s.m_useQmlDebugger = true := by
      by_contra hq
      simp [requiredPorts, hcpp, hq, hpl] at hports
    have hrest : rest = [] := by
      simp [requiredPorts, hcpp, hqml, hpl] at hports
      exact List.length_eq_zero.mp (by omega)
    subst hrest
    simp [newEffects, startExecution, hst, hrun, hcpp, hqml, setPort, hpl, handleError, emit,
      setFinished, setupResultCount, RemoteSetupResult.init, assignPort]

/-- Witness for C4: native and script debugging requested, one free port only. -/
theorem startExecution_port_exhaustion_witness :
    (sampleSession true true "" [10000]).m_state ≠ .Inactive ∧
    (sampleSession true true "" [10000]).m_state ≠ .Running ∧
    (sampleSession true true "" [10000]).m_portList.length <
      requiredPorts (sampleSession true true "" [10000]) ∧
    (startExecution plainExternals (sampleSession true true "" [10000])).m_state = .Inactive :=
  ⟨by decide, by decide, by decide,
    (startExecution_port_exhaustion plainExternals (sampleSession true true "" [10000])
      (by decide) (by decide) (by decide)).2.2.2.2⟩

/-! ## Setup results -/

theorem run_cons (ext : Externals) (ev : Event) (evs : List Event) (s : QnxDebugSupport) :
    run ext (ev :: evs) s = run ext evs (dispatch ext ev s) := rfl

theorem inferiorIllCount_append (t l : List Effect) :
    inferiorIllCount (t ++ l) = inferiorIllCount t + inferiorIllCount l := by
  simp [inferiorIllCount]

/-- The begin-session request never reports the inferior ill. -/
theorem handleAdapterSetupRequested_inferiorIll (ext : Externals) (s : QnxDebugSupport) :
    inferiorIllCount (handleAdapterSetupRequested ext s).trace = inferiorIllCount s.trace := by
  by_cases hst : s.m_state = .Inactive
  · cases hpl : s.m_portList with
    | nil =>
      by_cases hc : s.m_useCppDebugger = true <;> by_cases hq : s.m_useQmlDebugger = true <;>
        simp [handleAdapterSetupRequested, QnxAbstractRunSupport.handleAdapterSetupRequested,
          startExecution, setPort, handleError, setFinished, setState, emit, assignPort, hst,
          hpl, hc, hq, inferiorIllCount]
    | cons p rest =>
      cases rest <;>
      by_cases hc : s.m_useCppDebugger = true <;> by_cases hq : s.m_useQmlDebugger = true <;>
        simp [handleAdapterSetupRequested, QnxAbstractRunSupport.handleAdapterSetupRequested,
          startExecution, setPort, handleError, setFinished, setState, emit, assignPort, hst,
          hpl, hc, hq, inferiorIllCount]
  · simp [handleAdapterSetupRequested, hst]

/-- One signal adds one `notifyInferiorIll` call when it is a failure signal
received in state `Running`, and none otherwise; a failure signal leaves a
`Running` session `Running`. -/
theorem dispatch_inferiorIll (ext : Externals) (ev : Event) (s : QnxDebugSupport) :
    inferiorIllCount (dispatch ext ev s).trace =
      inferiorIllCount s.trace +
        (if s.m_state = .Running ∧ ev.isFailure = true then 1 else 0) ∧
    (s.m_state = .Running → ev.isFailure = true → (dispatch ext ev s).m_state = .Running) := by
  cases ev with
  | requestRemoteSetup =>
    simp [dispatch, Event.isFailure, handleAdapterSetupRequested_inferiorIll]
  | reportError error =>
    by_cases hrun : s.m_state = .Running
    · simp [dispatch, Event.isFailure, handleError, hrun, emit, inferiorIllCount_append]
      simp [inferiorIllCount]
    · by_cases hin : s.m_state = .Inactive <;>
        simp [dispatch, Event.isFailure, handleError, hrun, hin, emit, setFinished,
          inferiorIllCount_append, inferiorIllCount]
  | finished success =>
    by_cases hrun : s.m_state = .Running
    · cases success <;>
        simp [dispatch, Event.isFailure, handleRemoteProcessFinished, hrun, emit,
          inferiorIllCount_append, inferiorIllCount]
    · by_cases hin : s.m_state = .Inactive <;>
        simp [dispatch, Event.isFailure, handleRemoteProcessFinished, hrun, hin, emit,
          inferiorIllCount_append, inferiorIllCount]
  | remoteProcessStarted =>
    simp [dispatch, Event.isFailure, handleRemoteProcessStarted,
      QnxAbstractRunSupport.handleRemoteProcessStarted, emit, inferiorIllCount]
  | reportProgress progressOutput =>
    simp [dispatch, Event.isFailure, handleProgressReport, emit, inferiorIllCount]
  | remoteStdout output =>
    by_cases h : s.m_state = .Inactive ∨ s.m_state = .Running <;>
      simp [dispatch, Event.isFailure, handleRemoteOutput, h, emit, inferiorIllCount]
  | remoteStderr output =>
    by_cases h : s.m_state = .Inactive ∨ s.m_state = .Running <;>
      simp [dispatch, Event.isFailure, handleRemoteOutput, h, emit, inferiorIllCount]
  | slog2Output msg outputFormat =>
    simp [dispatch, Event.isFailure, handleApplicationOutput, emit, inferiorIllCount]
  | commandMissing =>
    by_cases h : s.qnxVersion > 0x060500 <;>
      simp [dispatch, Event.isFailure, printMissingWarning, h, emit, inferiorIllCount]
  | runControlFinished =>
    simp [dispatch, Event.isFailure, handleDebuggingFinished, killInferiorProcess, setFinished,
      emit, inferiorIllCount]

/-- Over a sequence of signals there are at most as many `notifyInferiorIll`
calls as failure signals. -/
theorem run_inferiorIll_le (ext : Externals) (evs : List Event) :
    ∀ s : QnxDebugSupport,
      inferiorIllCount (run ext evs s).trace ≤
        inferiorIllCount s.trace + evs.countP Event.isFailure := by
  induction evs with
  | nil => intro s; simp [run]
  | cons ev evs ih =>
    intro s
    have hstep := (dispatch_inferiorIll ext ev s).1
    have hrec := ih (dispatch ext ev s)
    rw [run_cons]
    rw [List.countP_cons]
    by_cases hf : ev.isFailure = true
    · by_cases hrun : s.m_state = .Running
      · simp [hf, hrun] at hstep ⊢
        omega
      · simp [hf, hrun] at hstep ⊢
        omega
    · simp [hf] at hstep ⊢
      omega

/-- C6, counterexample: an error followed by an unsuccessful finish, both
received while `Running`, produce two `notifyInferiorIll` calls. -/
theorem inferiorIll_twice :
    (run plainExternals [.requestRemoteSetup, .remoteProcessStarted]
      (freshSession true false "" [10000])).m_state = .Running ∧
    (run plainExternals [.requestRemoteSetup, .remoteProcessStarted, .reportError "lost"]
      (freshSession true false "" [10000])).m_state = .Running ∧
    inferiorIllCount
      (run plainExternals
        [.requestRemoteSetup, .remoteProcessStarted, .reportError "lost", .finished false]
        (freshSession true false "" [10000])).trace = 2 := by
  refine ⟨rfl, rfl, rfl⟩

/-- C6, amended: `notifyInferiorIll` is called only while the state is `Running`,
once for every error signal and every unsuccessful finish received in that
state: over any sequence of signals the number of calls is the number of failure
signals that reach the session while it is `Running` (hence at most the number
of failure signals), and such a signal leaves the session `Running`. -/
theorem inferiorIll_once_per_failure_while_running (ext : Externals) (evs : List Event)
    (s : QnxDebugSupport) :
    inferiorIllCount (run ext evs s).trace =
      inferiorIllCount s.trace + failuresWhileRunning ext evs s ∧
    inferiorIllCount (run ext evs s).trace ≤
      inferiorIllCount s.trace + evs.countP Event.isFailure ∧
    (∀ ev, s.m_state = .Running → ev.isFailure = true →
      (dispatch ext ev s).m_state = .Running ∧
      inferiorIllCount (dispatch ext ev s).trace = inferiorIllCount s.trace + 1) ∧
    (∀ ev, s.m_state ≠ .Running →
      inferiorIllCount (dispatch ext ev s).trace = inferiorIllCount s.trace) := by
  refine ⟨?_, run_inferiorIll_le ext evs s, ?_, ?_⟩
  · induction evs generalizing s with
    | nil => simp [run, failuresWhileRunning]
    | cons ev evs ih =>
      rw [run_cons, ih (dispatch ext ev s), (dispatch_inferiorIll ext ev s).1]
      simp only [failuresWhileRunning]
      omega
  · intro ev hrun hf
    refine ⟨(dispatch_inferiorIll ext ev s).2 hrun hf, ?_⟩
    rw [(dispatch_inferiorIll ext ev s).1]
    simp [hrun, hf]
  · intro ev hrun
    rw [(dispatch_inferiorIll ext ev s).1]
    simp [hrun]

/-! ## Unexpected finish, launch errors, start confirmation, teardown -/

/-- C7, counterexample: after an unsuccessful finish in state `Running` the
session is still `Running`; `notifyInferiorIll` is the only call made, and the
ports are still held. -/
theorem unsuccessful_finish_stays_running :
    (run plainExternals [.requestRemoteSetup, .remoteProcessStarted]
      (freshSession true false "" [10000])).m_state = .Running ∧
    (handleRemoteProcessFinished plainExternals false
      (run plainExternals [.requestRemoteSetup, .remoteProcessStarted]
        (freshSession true false "" [10000]))).m_state = .Running ∧
    (handleRemoteProcessFinished plainExternals false
      (run plainExternals [.requestRemoteSetup, .remoteProcessStarted]
        (freshSession true false "" [10000]))).m_pdebugPort = some 10000 ∧
    newEffects (handleRemoteProcessFinished plainExternals false)
      (run plainExternals [.requestRemoteSetup, .remoteProcessStarted]
        (freshSession true false "" [10000])) = [.notifyInferiorIll] := by
  refine ⟨rfl, rfl, rfl, rfl⟩

/-- C7, amended: on an unsuccessful finish in state `Running`,
`handleRemoteProcessFinished` calls `notifyInferiorIll` once and changes nothing
else (the session stays `Running`); the teardown runs when the end-session
request is handled afterwards, which leaves the session `Inactive`. -/
theorem finished_while_running (ext : Externals) (s : QnxDebugSupport)
    (hrun : s.m_state = .Running) :
    handleRemoteProcessFinished ext false s = { s with trace := s.trace ++ [.notifyInferiorIll] } ∧
    (handleRemoteProcessFinished ext false s).m_state = .Running ∧
    (handleDebuggingFinished (handleRemoteProcessFinished ext false s)).m_state = .Inactive ∧
    newEffects handleDebuggingFinished (handleRemoteProcessFinished ext false s) =
      [.appRunnerStop, .releasePorts (allocatedPorts s), .slog2InfoStop,
       .killProcess s.m_runnable.executable] := by
  simp [handleRemoteProcessFinished, hrun, emit, handleDebuggingFinished, killInferiorProcess,
    setFinished, newEffects, allocatedPorts]

/-- Witness for C7 (amended): a running native-debugging session. -/
theorem finished_while_running_witness :
    (run plainExternals [.requestRemoteSetup, .remoteProcessStarted]
      (freshSession true false "" [10000])).m_state = .Running ∧
    (handleDebuggingFinished (handleRemoteProcessFinished plainExternals false
      (run plainExternals [.requestRemoteSetup, .remoteProcessStarted]
        (freshSession true false "" [10000])))).m_state = .Inactive :=
  ⟨rfl,
    (finished_while_running plainExternals
      (run plainExternals [.requestRemoteSetup, .remoteProcessStarted]
        (freshSession true false "" [10000])) rfl).2.2.1⟩

/-- C8: a launcher error with text `error` in state `StartingRemoteProcess` makes
`handleError` call `setFinished` (launcher stopped, ports released, session
`Inactive`) and then report exactly one setup result, with `success = false`
and the reason `Initial setup failed: ` followed by `error`. -/
theorem handleError_while_starting (error : String) (s : QnxDebugSupport)
    (hst : s.m_state = .StartingRemoteProcess) :
    (handleError error s).m_state = .Inactive ∧
    (handleError error s).m_pdebugPort = none ∧
    (handleError error s).m_qmlPort = none ∧
    newEffects (handleError error) s =
      newEffects setFinished s ++
        [.notifyEngineRemoteSetupFinished
          { success := false
            reason := "Initial setup failed: " ++ error
            gdbServerPort := none
            qmlServerPort := none }] ∧
    newEffects setFinished s = [.appRunnerStop, .releasePorts (allocatedPorts s)] ∧
    setupResultCount (newEffects (handleError error) s) = 1 ∧
    (∀ result, Effect.notifyEngineRemoteSetupFinished result ∈ newEffects (handleError error) s →
      result.success = false ∧ ∃ before after, result.reason = before ++ error ++ after) := by
  simp [handleError, hst, emit, setFinished, newEffects, RemoteSetupResult.init,
    setupResultCount]
  exact ⟨"Initial setup failed: ", "", by simp⟩

/-- Witness for C8: the launcher reports `no such file` for an outstanding launch. -/
theorem handleError_while_starting_witness :
    (run plainExternals [.requestRemoteSetup]
      (freshSession true false "" [10000])).m_state = .StartingRemoteProcess ∧
    newEffects (handleError "no such file")
      (run plainExternals [.requestRemoteSetup] (freshSession true false "" [10000])) =
      [.appRunnerStop, .releasePorts [10000],
       .notifyEngineRemoteSetupFinished
        { success := false
          reason := "Initial setup failed: no such file"
          gdbServerPort := none
          qmlServerPort := none }] :=
  ⟨rfl,
    (handleError_while_starting "no such file"
      (run plainExternals [.requestRemoteSetup] (freshSession true false "" [10000]))
      rfl).2.2.2.1⟩

/-- The ports a begun session holds: the first free port for the native
debugger when requested, the next one for the script debugger when requested. -/
theorem handleAdapterSetupRequested_ports (ext : Externals) (useCpp useQml : Bool)
    (runnable : StandardRunnable) (freePorts : List Nat) (version : Nat)
    (hst : (handleAdapterSetupRequested ext
      (QnxDebugSupport.create useCpp useQml runnable freePorts version)).m_state =
        .StartingRemoteProcess) :
    (handleAdapterSetupRequested ext
      (QnxDebugSupport.create useCpp useQml runnable freePorts version)).m_pdebugPort =
        (if useCpp then freePorts.head? else none) ∧
    (handleAdapterSetupRequested ext
      (QnxDebugSupport.create useCpp useQml runnable freePorts version)).m_qmlPort =
        (if useQml then (if useCpp then freePorts.tail.head? else freePorts.head?) else none) := by
  cases useCpp <;> cases useQml <;> rcases freePorts with _ | ⟨p, _ | ⟨q, rest⟩⟩ <;>
    simp_all [handleAdapterSetupRequested, QnxAbstractRunSupport.handleAdapterSetupRequested,
      QnxDebugSupport.create, startExecution, setPort, handleError, setFinished, setState, emit,
      assignPort]

/-- C9: on the start confirmation in state `StartingRemoteProcess`,
`handleRemoteProcessStarted` makes the session `Running` and reports one setup
result with `success = true` carrying the two port members; for a session
that was constructed and begun, these are the first free port for the native
debugger and the next one for the script debugger, each unset when that
debugger was not requested. -/
theorem handleRemoteProcessStarted_while_starting (s : QnxDebugSupport)
    (hst : s.m_state = .StartingRemoteProcess) :
    (handleRemoteProcessStarted s).m_state = .Running ∧
    newEffects handleRemoteProcessStarted s =
      [.notifyEngineRemoteSetupFinished
        { success := true
          reason := ""
          gdbServerPort := s.m_pdebugPort
          qmlServerPort := s.m_qmlPort }] ∧
    (∀ ext useCpp useQml runnable freePorts version,
      s = handleAdapterSetupRequested ext
        (QnxDebugSupport.create useCpp useQml runnable freePorts version) →
      s.m_pdebugPort = (if useCpp then freePorts.head? else none) ∧
      s.m_qmlPort =
        (if useQml then (if useCpp then freePorts.tail.head? else freePorts.head?) else none)) := by
  refine ⟨?_, ?_, ?_⟩
  · simp [handleRemoteProcessStarted, QnxAbstractRunSupport.handleRemoteProcessStarted, emit]
  · simp [handleRemoteProcessStarted, QnxAbstractRunSupport.handleRemoteProcessStarted, emit,
      newEffects, RemoteSetupResult.init]
  · intro ext useCpp useQml runnable freePorts version hs
    subst hs
    exact handleAdapterSetupRequested_ports ext useCpp useQml runnable freePorts version hst

/-- Witness for C9: a script-only session that was given port 10000. -/
theorem handleRemoteProcessStarted_while_starting_witness :
    (handleAdapterSetupRequested plainExternals
      (freshSession false true "" [10000, 10001])).m_state = .StartingRemoteProcess ∧
    newEffects handleRemoteProcessStarted
      (handleAdapterSetupRequested plainExternals (freshSession false true "" [10000, 10001])) =
      [.notifyEngineRemoteSetupFinished
        { success := true, reason := "", gdbServerPort := none, qmlServerPort := some 10000 }] :=
  ⟨rfl,
    (handleRemoteProcessStarted_while_starting
      (handleAdapterSetupRequested plainExternals (freshSession false true "" [10000, 10001]))
      rfl).2.1⟩

/-- C10, counterexample: for a running session the end-session request first
finishes the session (launcher stop, port release) and only then stops the log
streamer and sends the kill request. -/
theorem handleDebuggingFinished_finishes_first :
    newEffects handleDebuggingFinished
      (run plainExternals [.requestRemoteSetup, .remoteProcessStarted]
        (freshSession true false "" [10000])) =
      [.appRunnerStop, .releasePorts [10000], .slog2InfoStop, .killProcess "/tmp/app"] ∧
    (newEffects handleDebuggingFinished
      (run plainExternals [.requestRemoteSetup, .remoteProcessStarted]
        (freshSession true false "" [10000]))).indexOf (.releasePorts [10000]) <
    (newEffects handleDebuggingFinished
      (run plainExternals [.requestRemoteSetup, .remoteProcessStarted]
        (freshSession true false "" [10000]))).indexOf .slog2InfoStop := by
  constructor
  · rfl
  · decide

/-- C10, amended: in every state `handleDebuggingFinished` performs all its
teardown steps, in the order: finish the session (`setFinished`: launcher stop,
port release, state `Inactive`), stop the log streamer, send the kill request
for the remote executable. -/
theorem handleDebuggingFinished_steps (s : QnxDebugSupport) :
    newEffects handleDebuggingFinished s =
      newEffects setFinished s ++ [.slog2InfoStop, .killProcess s.m_runnable.executable] ∧
    newEffects setFinished s = [.appRunnerStop, .releasePorts (allocatedPorts s)] ∧
    (setFinished s).m_state = .Inactive ∧
    (handleDebuggingFinished s).m_state = .Inactive := by
  simp [handleDebuggingFinished, killInferiorProcess, setFinished, emit, newEffects]

/-! ## Teardown in every state -/

/-- C11: running `handleDebuggingFinished` twice leaves the same members as
running it once (state `Inactive`, both ports unset, flags, runnable and free
ports as after the first call); the second call makes the same four calls as
any other, releasing no port, and reports neither a setup result nor an ill
inferior. -/
theorem handleDebuggingFinished_idempotent (s : QnxDebugSupport) :
    members (handleDebuggingFinished (handleDebuggingFinished s)) =
      members (handleDebuggingFinished s) ∧
    (handleDebuggingFinished s).m_state = .Inactive ∧
    (handleDebuggingFinished (handleDebuggingFinished s)).m_state = .Inactive ∧
    (handleDebuggingFinished (handleDebuggingFinished s)).m_pdebugPort =
      (handleDebuggingFinished s).m_pdebugPort ∧
    (handleDebuggingFinished (handleDebuggingFinished s)).m_qmlPort =
      (handleDebuggingFinished s).m_qmlPort ∧
    (handleDebuggingFinished (handleDebuggingFinished s)).m_useCppDebugger =
      s.m_useCppDebugger ∧
    (handleDebuggingFinished (handleDebuggingFinished s)).m_useQmlDebugger =
      s.m_useQmlDebugger ∧
    newEffects handleDebuggingFinished (handleDebuggingFinished s) =
      [.appRunnerStop, .releasePorts [], .slog2InfoStop,
       .killProcess s.m_runnable.executable] := by
  simp [handleDebuggingFinished, killInferiorProcess, setFinished, emit, newEffects, members,
    allocatedPorts]

/-- C12, counterexample: an end-session request delivered to a session that is
`Inactive` (freshly constructed) still stops the log streamer and sends the kill
request. -/
theorem handleDebuggingFinished_while_inactive :
    (freshSession true false "" [10000]).m_state = .Inactive ∧
    newEffects handleDebuggingFinished (freshSession true false "" [10000]) =
      [.appRunnerStop, .releasePorts [], .slog2InfoStop, .killProcess "/tmp/app"] := by
  constructor <;> rfl

/-- C12, amended: an end-session request is accepted in every state, `Inactive`
included: `handleDebuggingFinished` always issues one streamer stop and one kill
request for the remote executable and leaves the session `Inactive`. -/
theorem handleDebuggingFinished_in_every_state (s : QnxDebugSupport) :
    (handleDebuggingFinished s).m_state = .Inactive ∧
    (newEffects handleDebuggingFinished s).count .slog2InfoStop = 1 ∧
    (newEffects handleDebuggingFinished s).count (.killProcess s.m_runnable.executable) = 1 ∧
    (s.m_state = .Inactive →
      Effect.slog2InfoStop ∈ newEffects handleDebuggingFinished s ∧
      Effect.killProcess s.m_runnable.executable ∈ newEffects handleDebuggingFinished s) := by
  simp [handleDebuggingFinished, killInferiorProcess, setFinished, emit, newEffects]

/-! ## The log streamer -/

theorem slog2StartCount_append (t l : List Effect) :
    slog2StartCount (t ++ l) = slog2StartCount t + slog2StartCount l := by
  simp [slog2StartCount]

/-- The begin-session request never starts the log streamer. -/
theorem handleAdapterSetupRequested_slog2Start (ext : Externals) (s : QnxDebugSupport) :
    slog2StartCount (handleAdapterSetupRequested ext s).trace = slog2StartCount s.trace := by
  by_cases hst : s.m_state = .Inactive
  · cases hpl : s.m_portList with
    | nil =>
      by_cases hc : s.m_useCppDebugger = true <;> by_cases hq : s.m_useQmlDebugger = true <;>
        simp [handleAdapterSetupRequested, QnxAbstractRunSupport.handleAdapterSetupRequested,
          startExecution, setPort, handleError, setFinished, setState, emit, assignPort, hst,
          hpl, hc, hq, slog2StartCount]
    | cons p rest =>
      cases rest <;>
      by_cases hc : s.m_useCppDebugger = true <;> by_cases hq : s.m_useQmlDebugger = true <;>
        simp [handleAdapterSetupRequested, QnxAbstractRunSupport.handleAdapterSetupRequested,
          startExecution, setPort, handleError, setFinished, setState, emit, assignPort, hst,
          hpl, hc, hq, slog2StartCount]
  · simp [handleAdapterSetupRequested, hst]

/-- One signal adds one `Slog2InfoRunner::start` call when it is the launcher's
start confirmation, and none otherwise. -/
theorem dispatch_slog2Start (ext : Externals) (ev : Event) (s : QnxDebugSupport) :
    slog2StartCount (dispatch ext ev s).trace =
      slog2StartCount s.trace + (if ev = .remoteProcessStarted then 1 else 0) := by
  cases ev with
  | requestRemoteSetup => simp [dispatch, handleAdapterSetupRequested_slog2Start]
  | reportError error =>
    by_cases hrun : s.m_state = .Running <;> by_cases hin : s.m_state = .Inactive <;>
      simp [dispatch, handleError, hrun, hin, emit, setFinished, slog2StartCount]
  | finished success =>
    by_cases hrun : s.m_state = .Running <;> by_cases hin : s.m_state = .Inactive <;>
      cases success <;>
      simp [dispatch, handleRemoteProcessFinished, hrun, hin, emit, slog2StartCount]
  | remoteProcessStarted =>
    simp [dispatch, handleRemoteProcessStarted,
      QnxAbstractRunSupport.handleRemoteProcessStarted, emit, slog2StartCount]
  | reportProgress progressOutput =>
    simp [dispatch, handleProgressReport, emit, slog2StartCount]
  | remoteStdout output =>
    by_cases h : s.m_state = .Inactive ∨ s.m_state = .Running <;>
      simp [dispatch, handleRemoteOutput, h, emit, slog2StartCount]
  | remoteStderr output =>
    by_cases h : s.m_state = .Inactive ∨ s.m_state = .Running <;>
      simp [dispatch, handleRemoteOutput, h, emit, slog2StartCount]
  | slog2Output msg outputFormat =>
    simp [dispatch, handleApplicationOutput, emit, slog2StartCount]
  | commandMissing =>
    by_cases h : s.qnxVersion > 0x060500 <;>
      simp [dispatch, printMissingWarning, h, emit, slog2StartCount]
  | runControlFinished =>
    simp [dispatch, handleDebuggingFinished, killInferiorProcess, setFinished, emit,
      slog2StartCount]

/-- C13: the log streamer is started only by the launcher's start confirmation,
once for each, and for that signal `handleRemoteProcessStarted` has run (the
session is `Running` and the setup result is out) before `Slog2InfoRunner::start`
is called. -/
theorem slog2Info_started_after_handler (ext : Externals) (evs : List Event)
    (s : QnxDebugSupport) :
    slog2StartCount (run ext evs s).trace =
      slog2StartCount s.trace + evs.count .remoteProcessStarted ∧
    (∀ ev, ev ≠ .remoteProcessStarted →
      slog2StartCount (dispatch ext ev s).trace = slog2StartCount s.trace) ∧
    dispatch ext .remoteProcessStarted s = emit .slog2InfoStart (handleRemoteProcessStarted s) ∧
    newEffects (dispatch ext .remoteProcessStarted) s =
      newEffects handleRemoteProcessStarted s ++ [.slog2InfoStart] ∧
    (handleRemoteProcessStarted s).m_state = .Running := by
  refine ⟨?_, ?_, rfl, ?_, ?_⟩
  · induction evs generalizing s with
    | nil => simp [run]
    | cons ev evs ih =>
      rw [run_cons, ih (dispatch ext ev s), dispatch_slog2Start ext ev s, List.count_cons]
      by_cases h : ev = .remoteProcessStarted
      · subst h
        simp
        omega
      · have h2 : (ev == Event.remoteProcessStarted) = false := by simpa using h
        simp [h, h2]
  · intro ev hev
    rw [dispatch_slog2Start ext ev s]
    simp [hev]
  · simp [dispatch, handleRemoteProcessStarted,
      QnxAbstractRunSupport.handleRemoteProcessStarted, emit, newEffects]
  · simp [handleRemoteProcessStarted, QnxAbstractRunSupport.handleRemoteProcessStarted, emit]

/-- C14, counterexample: on a device of version 0x060400, below the threshold,
the start confirmation still starts the log streamer. -/
theorem slog2Info_started_on_old_device :
    (deviceSession 0x060400 true false [10000]).qnxVersion < 0x060500 ∧
    newEffects (dispatch plainExternals .remoteProcessStarted)
      (run plainExternals [.requestRemoteSetup] (deviceSession 0x060400 true false [10000])) =
      [.notifyEngineRemoteSetupFinished
        { success := true, reason := "", gdbServerPort := some 10000, qmlServerPort := none },
       .slog2InfoStart] := by
  constructor
  · decide
  · rfl

/-- C14, amended: whatever the device version, the start confirmation calls
`Slog2InfoRunner::start` once; what depends on the version is the warning: a
"command missing" report of the log streamer is shown only when the version is
above 0x060500 and is dropped otherwise. -/
theorem slog2Info_version_gates_warning_only (ext : Externals) (s : QnxDebugSupport) :
    slog2StartCount (newEffects (dispatch ext .remoteProcessStarted) s) = 1 ∧
    (s.qnxVersion ≤ 0x060500 → dispatch ext .commandMissing s = s) ∧
    (s.qnxVersion > 0x060500 → dispatch ext .commandMissing s = printMissingWarning s) := by
  refine ⟨?_, ?_, ?_⟩
  · simp [dispatch, handleRemoteProcessStarted,
      QnxAbstractRunSupport.handleRemoteProcessStarted, emit, newEffects, slog2StartCount]
  · intro h
    have h2 : ¬ s.qnxVersion > 0x060500 := by omega
    simp [dispatch, h2]
  · intro h
    simp [dispatch, h]

/-- C15: in every state `printMissingWarning` shows exactly one message, the
warning on the error channel, and changes nothing else: state, ports, free
ports, flags and runnable are kept, and neither `notifyInferiorIll`,
`notifyEngineRemoteSetupFinished` nor the calls of `setFinished` are made. -/
theorem printMissingWarning_frame (s : QnxDebugSupport) :
    newEffects printMissingWarning s = [.showMessage missingWarningText .AppError] ∧
    members (printMissingWarning s) = members s ∧
    (printMissingWarning s).m_state = s.m_state ∧
    (printMissingWarning s).m_pdebugPort = s.m_pdebugPort ∧
    (printMissingWarning s).m_qmlPort = s.m_qmlPort ∧
    (printMissingWarning s).m_runnable = s.m_runnable ∧
    inferiorIllCount (newEffects printMissingWarning s) = 0 ∧
    setupResultCount (newEffects printMissingWarning s) = 0 ∧
    Effect.appRunnerStop ∉ newEffects printMissingWarning s ∧
    (∀ ports, Effect.releasePorts ports ∉ newEffects printMissingWarning s) := by
  simp [printMissingWarning, emit, newEffects, members, inferiorIllCount, setupResultCount]

/-! ## Output relaying -/

/-- C16, counterexample: while the launch is outstanding (`StartingRemoteProcess`)
a progress report and a log line are forwarded, and an output chunk is
forwarded to a session that is `Inactive`. -/
theorem output_forwarded_outside_running :
    (run plainExternals [.requestRemoteSetup]
      (freshSession true false "" [10000])).m_state = .StartingRemoteProcess ∧
    newEffects (handleProgressReport "50%")
      (run plainExternals [.requestRemoteSetup] (freshSession true false "" [10000])) =
      [.showMessage "50%\n" .AppStuff] ∧
    newEffects (handleApplicationOutput "ready" .StdOutFormat)
      (run plainExternals [.requestRemoteSetup] (freshSession true false "" [10000])) =
      [.showMessage "ready" .AppOutput] ∧
    (freshSession true false "" [10000]).m_state = .Inactive ∧
    newEffects (handleRemoteOutput plainExternals [104, 105])
      (freshSession true false "" [10000]) = [.showMessage "hi" .AppOutput] := by
  refine ⟨rfl, rfl, rfl, rfl, ?_⟩
  decide

/-- C16, amended: `handleRemoteOutput` forwards a chunk exactly when the state is
`Inactive` or `Running` and forwards nothing in any other state;
`handleApplicationOutput` and `handleProgressReport` forward in every state. -/
theorem output_forwarding_by_state (ext : Externals) (s : QnxDebugSupport) :
    (∀ output, newEffects (handleRemoteOutput ext output) s =
      if s.m_state = .Inactive ∨ s.m_state = .Running then
        [.showMessage (ext.fromUtf8 output) .AppOutput]
      else []) ∧
    (∀ msg outputFormat, newEffects (handleApplicationOutput msg outputFormat) s =
      [.showMessage msg .AppOutput]) ∧
    (∀ progressOutput, newEffects (handleProgressReport progressOutput) s =
      [.showMessage (progressOutput ++ "\n") .AppStuff]) := by
  refine ⟨?_, ?_, ?_⟩
  · intro output
    by_cases h : s.m_state = .Inactive ∨ s.m_state = .Running <;>
      simp [handleRemoteOutput, h, emit, newEffects]
  · intro msg outputFormat
    simp [handleApplicationOutput, emit, newEffects]
  · intro progressOutput
    simp [handleProgressReport, emit, newEffects]

/-- Output chunks delivered to a `Running` session are forwarded one by one, in order. -/
theorem run_remoteOutput (ext : Externals) (mk : List Nat → Event)
    (hmk : mk = Event.remoteStdout ∨ mk = Event.remoteStderr) (chunks : List (List Nat)) :
    ∀ s : QnxDebugSupport, s.m_state = .Running →
      (run ext (chunks.map mk) s).m_state = .Running ∧
      (run ext (chunks.map mk) s).trace =
        s.trace ++ chunks.map (fun b => Effect.showMessage (ext.fromUtf8 b) .AppOutput) := by
  induction chunks with
  | nil => intro s hs; simp [run, hs]
  | cons b chunks ih =>
    intro s hs
    have hd : dispatch ext (mk b) s = emit (.showMessage (ext.fromUtf8 b) .AppOutput) s := by
      rcases hmk with h | h <;> subst h <;> simp [dispatch, handleRemoteOutput, hs]
    have hstep := ih (emit (.showMessage (ext.fromUtf8 b) .AppOutput) s) (by simpa [emit] using hs)
    rw [List.map_cons, run_cons, hd]
    refine ⟨hstep.1, ?_⟩
    rw [hstep.2]
    simp [emit]

/-- Log lines delivered to a session are forwarded one by one, in order. -/
theorem run_slog2Output (ext : Externals) (lines : List (String × OutputFormat)) :
    ∀ s : QnxDebugSupport,
      (run ext (lines.map (fun l => Event.slog2Output l.1 l.2)) s).m_state = s.m_state ∧
      (run ext (lines.map (fun l => Event.slog2Output l.1 l.2)) s).trace =
        s.trace ++ lines.map (fun l => Effect.showMessage l.1 .AppOutput) := by
  induction lines with
  | nil => intro s; simp [run]
  | cons l lines ih =>
    intro s
    have hstep := ih (emit (.showMessage l.1 .AppOutput) s)
    rw [List.map_cons, run_cons]
    simp only [dispatch, handleApplicationOutput]
    refine ⟨by rw [hstep.1]; rfl, ?_⟩
    rw [hstep.2]
    simp [emit]

/-- C17: while the session is `Running`, `handleRemoteOutput` shows exactly one
message, the UTF-8 decoding of the chunk, and `handleApplicationOutput` shows
exactly one message, the line itself, whatever the format; both go to the
application-output channel; a sequence of stdout chunks, of stderr chunks or of
log lines is forwarded message by message in arrival order. -/
theorem output_forwarded_verbatim (ext : Externals) (s : QnxDebugSupport)
    (hrun : s.m_state = .Running) :
    (∀ output, newEffects (handleRemoteOutput ext output) s =
      [.showMessage (ext.fromUtf8 output) .AppOutput]) ∧
    (∀ msg outputFormat, newEffects (handleApplicationOutput msg outputFormat) s =
      [.showMessage msg .AppOutput]) ∧
    (∀ chunks : List (List Nat),
      newEffects (run ext (chunks.map Event.remoteStdout)) s =
        chunks.map (fun b => Effect.showMessage (ext.fromUtf8 b) .AppOutput)) ∧
    (∀ chunks : List (List Nat),
      newEffects (run ext (chunks.map Event.remoteStderr)) s =
        chunks.map (fun b => Effect.showMessage (ext.fromUtf8 b) .AppOutput)) ∧
    (∀ lines : List (String × OutputFormat),
      newEffects (run ext (lines.map (fun l => Event.slog2Output l.1 l.2))) s =
        lines.map (fun l => Effect.showMessage l.1 .AppOutput)) := by
  refine ⟨?_, ?_, ?_, ?_, ?_⟩
  · intro output
    simp [handleRemoteOutput, hrun, emit, newEffects]
  · intro msg outputFormat
    simp [handleApplicationOutput, emit, newEffects]
  · intro chunks
    simp [newEffects, (run_remoteOutput ext Event.remoteStdout (Or.inl rfl) chunks s hrun).2]
  · intro chunks
    simp [newEffects, (run_remoteOutput ext Event.remoteStderr (Or.inr rfl) chunks s hrun).2]
  · intro lines
    simp [newEffects, (run_slog2Output ext lines s).2]

/-- Witness for C17: two stdout chunks delivered to a running session. -/
theorem output_forwarded_verbatim_witness :
    (run plainExternals [.requestRemoteSetup, .remoteProcessStarted]
      (freshSession true false "" [10000])).m_state = .Running ∧
    newEffects (run plainExternals ([[104, 105], [33]].map Event.remoteStdout))
      (run plainExternals [.requestRemoteSetup, .remoteProcessStarted]
        (freshSession true false "" [10000])) =
      [[104, 105], [33]].map
        (fun b => Effect.showMessage (plainExternals.fromUtf8 b) .AppOutput) :=
  ⟨rfl,
    (output_forwarded_verbatim plainExternals
      (run plainExternals [.requestRemoteSetup, .remoteProcessStarted]
        (freshSession true false "" [10000])) rfl).2.2.1 [[104, 105], [33]]⟩

/-! ## Both debuggers -/

/-- C18: with native and script debugging both enabled, `startExecution` takes
two ports, the first free one for the native debugger and the next for the
script debugger; every runnable it hands to the launcher is the debug helper
with the debug port as its only argument (no script-debugger argument, none of
the original arguments); and the success result that `handleRemoteProcessStarted`
reports afterwards carries both ports. -/
theorem startExecution_both_debuggers (ext : Externals) (s : QnxDebugSupport)
    (hcpp : s.m_useCppDebugger = true) (hqml : s.m_useQmlDebugger = true) :
    (∀ r, Effect.appRunnerStart r ∈ newEffects (startExecution ext) s →
      ∃ p q rest, s.m_portList = p :: q :: rest ∧
        buildArguments ext (startExecution ext s) = [toString p] ∧
        r.executable = ext.QNX_DEBUG_EXECUTABLE ∧
        r.commandLineArguments = ext.joinArgs [toString p]) ∧
    (∀ p q rest, s.m_state ≠ .Inactive → s.m_portList = p :: q :: rest →
      (startExecution ext s).m_pdebugPort = some p ∧
      (startExecution ext s).m_qmlPort = some q ∧
      (startExecution ext s).m_portList = rest ∧
      newEffects (startExecution ext) s =
        [.stateChanged .StartingRemoteProcess,
         .appRunnerStart
          { executable := ext.QNX_DEBUG_EXECUTABLE
            commandLineArguments := ext.joinArgs [toString p]
            environment := s.m_runnable.environment
            workingDirectory := s.m_runnable.workingDirectory }] ∧
      newEffects handleRemoteProcessStarted (startExecution ext s) =
        [.notifyEngineRemoteSetupFinished
          { success := true
            reason := ""
            gdbServerPort := some p
            qmlServerPort := some q }]) := by
  refine ⟨?_, ?_⟩
  · intro r hr
    by_cases hst : s.m_state = .Inactive
    · simp [newEffects, startExecution, hst] at hr
    · rcases hpl : s.m_portList with _ | ⟨p, _ | ⟨q, rest⟩⟩
      · by_cases hrun : s.m_state = .Running <;>
          simp [newEffects, startExecution, hst, hcpp, setPort, hpl, handleError, hrun,
            emit, setFinished] at hr
      · by_cases hrun : s.m_state = .Running <;>
          simp [newEffects, startExecution, hst, hcpp, hqml, setPort, hpl, handleError, hrun,
            emit, setFinished, assignPort] at hr
      · refine ⟨p, q, rest, rfl, ?_⟩
        simp [newEffects, startExecution, hst, hcpp, hqml, setPort, hpl, assignPort,
          setState, emit, buildRunnable, buildArguments, processExecutable,
          Port.number] at hr ⊢
        subst hr
        simp
  · intro p q rest hst hpl
    simp [newEffects, startExecution, hst, hcpp, hqml, setPort, hpl, assignPort,
      setState, emit, buildRunnable, buildArguments, processExecutable, Port.number,
      handleRemoteProcessStarted, QnxAbstractRunSupport.handleRemoteProcessStarted,
      RemoteSetupResult.init]

/-- Witness for C18: both debuggers, free ports 10000 and 10001, arguments `--fast`. -/
theorem startExecution_both_debuggers_witness :
    (sampleSession true true "--fast" [10000, 10001]).m_useCppDebugger = true ∧
    (sampleSession true true "--fast" [10000, 10001]).m_useQmlDebugger = true ∧
    (startExecution plainExternals (sampleSession true true "--fast" [10000, 10001])).m_qmlPort =
      some 10001 ∧
    newEffects (startExecution plainExternals) (sampleSession true true "--fast" [10000, 10001]) =
      [.stateChanged .StartingRemoteProcess,
       .appRunnerStart
        { executable := "pdebug", commandLineArguments := "10000", environment := [],
          workingDirectory := "/tmp" }] :=
  ⟨rfl, rfl,
    ((startExecution_both_debuggers plainExternals
      (sampleSession true true "--fast" [10000, 10001]) rfl rfl).2 10000 10001 []
        (by decide) rfl).2.1,
    ((startExecution_both_debuggers plainExternals
      (sampleSession true true "--fast" [10000, 10001]) rfl rfl).2 10000 10001 []
        (by decide) rfl).2.2.2.1⟩

end Qnx

namespace ProjectExplorer

/-! ## Marking tool chains for addition and removal -/

/-- C19: for an invalid parent index with a null internal pointer (such as the
default-constructed one) and a live root node, `index(row, column, parent)`
returns the index of the `row`-th top-level node when
`0 <= row < number of top-level nodes`, and that index is valid exactly when the
column is not negative; for every other row the code goes on to line 126 and
follows the parent's null internal pointer. -/
theorem index_top_level (m : ToolChainModel) (row column : Int) (parent : QModelIndex)
    (root : ToolChainNode) (hparent : parent.isValid = false)
    (hnull : parent.internalPointer = none) (hroot : m.heap[m.m_root]? = some root) :
    (0 ≤ row ∧ row < root.childNodes.length →
      ∃ child, root.childNodes[row.toNat]? = some child ∧
        m.index row column parent = .ok (createIndex row column (some child)) ∧
        (createIndex row column (some child)).isValid = decide (0 ≤ column)) ∧
    (¬ (0 ≤ row ∧ row < root.childNodes.length) →
      m.index row column parent = .error .nullDereference) := by
  refine ⟨?_, ?_⟩
  · intro h
    have hlt : row.toNat < root.childNodes.length := by omega
    refine ⟨root.childNodes[row.toNat], List.getElem?_eq_getElem hlt, ?_, ?_⟩
    · simp [ToolChainModel.index, hparent, childNodesOf, hroot, h, listAt,
        List.getElem?_eq_getElem hlt]
    · simp [createIndex, QModelIndex.isValid, h.1]
  · intro h
    simp [ToolChainModel.index, hparent, hnull, childNodesOf, hroot, h, indexBelowParent]

/-- Witness for C19: the sample model has two top-level nodes; row 2 with the
default-constructed parent index makes the lookup follow the null pointer. -/
theorem index_top_level_witness :
    QModelIndex.invalid.isValid = false ∧
    QModelIndex.invalid.internalPointer = none ∧
    sampleModel.heap[sampleModel.m_root]? =
      some { ToolChainNode.init none none none false with childNodes := [1, 2] } ∧
    ¬ ((0 : Int) ≤ 2 ∧ (2 : Int) <
      ({ ToolChainNode.init none none none false with
        childNodes := [1, 2] } : ToolChainNode).childNodes.length) ∧
    sampleModel.index 2 0 QModelIndex.invalid = .error .nullDereference :=
  ⟨by decide, rfl, by decide, by decide,
    (index_top_level sampleModel 2 0 QModelIndex.invalid
      { ToolChainNode.init none none none false with childNodes := [1, 2] }
      (by decide) rfl (by decide)).2 (by decide)⟩

end ProjectExplorer
